import Mathlib

/-!
Verification of the PPP session engine (ppp.c) of the openconnect VPN
client.  The definitions below are a shallow embedding of the C source:
byte buffers become lists of naturals (each < 256 where the source uses
unsigned char), machine integers become naturals with explicit reductions
where overflow matters, and the mutable session structure
(struct oc_ppp together with the per-session pieces of vpninfo that the
engine touches) becomes an explicit state record threaded through the
functions.  Enqueueing a packet on the tcp control queue is modelled by
returning the list of queued packets; allocation is modelled as
succeeding.
-/

namespace OcPPP

/-- Protocol numbers from ppp.c. -/
def PPP_LCP : Nat := 0xc021

def PPP_IPCP : Nat := 0x8021

def PPP_IP6CP : Nat := 0x8057

def PPP_IP : Nat := 0x21

def PPP_IP6 : Nat := 0x57

def CONFREQ : Nat := 1

def CONFACK : Nat := 2

def CONFNAK : Nat := 3

def CONFREJ : Nat := 4

def TERMREQ : Nat := 5

def TERMACK : Nat := 6

def CODEREJ : Nat := 7

def PROTREJ : Nat := 8

def ECHOREQ : Nat := 9

def ECHOREP : Nat := 10

def DISCREQ : Nat := 11

def ASYNCMAP_LCP : Nat := 0xffffffff

/-- LCP option bits (out_lcp_opts / in_lcp_opts). -/
def ACCOMP : Nat := 1

def PFCOMP : Nat := 2

def VJCOMP : Nat := 4

/-- PPP session phases (ppp_state). -/
def PPPS_DEAD : Nat := 0

def PPPS_ESTABLISH : Nat := 1

def PPPS_OPENED : Nat := 2

def PPPS_AUTHENTICATE : Nat := 3

def PPPS_NETWORK : Nat := 4

def PPPS_TERMINATE : Nat := 5

/-- NCP negotiation state bits.  Note that in the source
NCP_TERM_ACK_SENT shares the value 16 with NCP_TERM_REQ_SENT and
NCP_TERM_ACK_RECEIVED shares 32 with NCP_TERM_REQ_RECEIVED. -/
def NCP_CONF_REQ_RECEIVED : Nat := 1

def NCP_CONF_REQ_SENT : Nat := 2

def NCP_CONF_ACK_RECEIVED : Nat := 4

def NCP_CONF_ACK_SENT : Nat := 8

def NCP_TERM_REQ_SENT : Nat := 16

def NCP_TERM_REQ_RECEIVED : Nat := 32

def NCP_TERM_ACK_SENT : Nat := 16

def NCP_TERM_ACK_RECEIVED : Nat := 32

/-- Read a byte of a buffer; out-of-range reads (which the C source never
performs on the paths modelled here, thanks to short-circuit evaluation
and the length checks) default to 0. -/
def byteAt (l : List Nat) (i : Nat) : Nat := l.getD i 0

/-- load_be16 from the source: big-endian 16-bit load. -/
def load_be16 (l : List Nat) (i : Nat) : Nat :=
  byteAt l i * 256 + byteAt l (i + 1)

/-- load_be32: big-endian 32-bit load. -/
def load_be32 (l : List Nat) (i : Nat) : Nat :=
  load_be16 l i * 65536 + load_be16 l (i + 2)

/-- store_be16: the two bytes of a 16-bit value, big-endian. -/
def store_be16 (v : Nat) : List Nat := [v / 256 % 256, v % 256]

/-- store_be32: the four bytes of a 32-bit value, big-endian. -/
def store_be32 (v : Nat) : List Nat :=
  [v / 16777216 % 256, v / 65536 % 256, v / 256 % 256, v % 256]

/-- The four bytes of a 32-bit quantity that the source stores in
on-the-wire (big-endian) order, such as out_lcp_magic.  We represent such
an int32_t field by the big-endian value of its stored bytes, so its raw
bytes are exactly its big-endian serialization. -/
def magicBytes (v : Nat) : List Nat := store_be32 v

/-- 32-bit bitwise complement (C unary ~ on a 32-bit quantity): for
x < 2^32 this is 0xffffffff - x, since complementing flips every bit and
no borrows occur. -/
def compl32 (x : Nat) : Nat := 0xffffffff - x

/-- NEED_ESCAPE(c, map) from ppp.c, kept verbatim: note that the source
tests map && (1UL << c) - a logical AND (map nonzero and the shifted bit
pattern nonzero) - rather than the bit test map & (1UL << c).  The shift
is a 64-bit shift (1UL), reached only when c < 0x20. -/
def NEED_ESCAPE (c map : Nat) : Bool :=
  (decide (c < 0x20) && (decide (map ≠ 0) && decide ((1 <<< c) % (2 ^ 64) ≠ 0)))
    || decide (c = 0x7d) || decide (c = 0x7e)

/-- The loop of buf_append_ppphdlc: i is the loop index, s the start of
the current unescaped run, acc the bytes appended to the output buffer so
far.  The fuel argument counts the remaining iterations (it starts at the
buffer length, so it never runs out).  Mirrors the source exactly: when
byte i needs escaping, the pending run is appended with length
i - s - 1 (one byte short), then 0x7d and data[i] xor 0x20; when the loop
ends, the pending run from s to the end is NOT appended. -/
def hdlcGo (data : List Nat) (map : Nat) : Nat → Nat → Nat → List Nat → List Nat
  | 0, _, _, acc => acc
  | fuel + 1, i, s, acc =>
    if i < data.length then
      let c := byteAt data i
      if NEED_ESCAPE c map then
        hdlcGo data map fuel (i + 1) (i + 1)
          ((if s < i then acc ++ (data.drop s).take (i - s - 1) else acc)
            ++ [0x7d, c ^^^ 0x20])
      else
        hdlcGo data map fuel (i + 1) s acc
    else acc

/-- buf_append_ppphdlc from ppp.c: the bytes appended to the output
buffer for input data and the given asyncmap. -/
def buf_append_ppphdlc (data : List Nat) (asyncmap : Nat) : List Nat :=
  hdlcGo data asyncmap data.length 0 0 []

/-- Specification-side escaper, from the spec's words (section 4.1): a
byte c is escaped iff (c < 0x20 and bit c of the asyncmap is set) or
c = 0x7d or c = 0x7e; escaped bytes become 0x7d followed by c xor 0x20;
all other bytes pass through verbatim. -/
def hdlc_escape_spec (data : List Nat) (asyncmap : Nat) : List Nat :=
  data.flatMap (fun c =>
    if (c < 0x20 ∧ asyncmap.testBit c) ∨ c = 0x7d ∨ c = 0x7e then
      [0x7d, c ^^^ 0x20]
    else [c])

/-- The two supported outer encapsulations (PPP_ENCAP_F5 /
PPP_ENCAP_F5_HDLC from the public header). -/
inductive Encap where
  | f5
  | f5hdlc
deriving DecidableEq, Repr

/-- The quit_reason strings the engine can set; a received
Terminate-Request/Ack can also record the packet's trailing bytes. -/
inductive Reason where
  | shortPacket
  | invalidEncap
  | unexpectedState
  | bytes (b : List Nat)
deriving DecidableEq, Repr

/-- The session state: struct oc_ppp together with the parts of
struct openconnect_info that ppp.c reads or writes (ip_info.mtu, the
configured address strings - modelled as their already-parsed byte
forms - and quit_reason).  Each oc_ncp's state bitmap is a natural;
id/last_req timers are abstracted (the mainloop's ka_check_deadline
results enter the model as boolean oracles). -/
structure PppState where
  encap : Encap
  encap_len : Nat
  hdlc : Bool
  want_ipv4 : Bool
  want_ipv6 : Bool
  ppp_state : Nat
  lcp : Nat
  ipcp : Nat
  ip6cp : Nat
  out_asyncmap : Nat
  out_lcp_opts : Nat
  out_lcp_magic : Nat
  out_peer_addr : List Nat
  out_ipv6_int_ident : List Nat
  in_asyncmap : Nat
  in_lcp_opts : Nat
  in_lcp_magic : Nat
  in_peer_addr : List Nat
  in_ipv6_int_ident : List Nat
  ipInfoMtu : Nat
  ipAddr : Option (List Nat)
  ipAddr6 : Option (List Nat)
  quitReason : Option Reason
deriving DecidableEq, Repr

/-- A packet placed on the tcp control queue by queue_config_packet:
its pre-stashed PPP protocol, then data = code, id, be16 length,
payload (length = 4 + payload length). -/
structure QPkt where
  proto : Nat
  id : Nat
  code : Nat
  payload : List Nat
deriving DecidableEq, Repr

/-- openconnect_ppp_new: calloc'd session with encap-derived fields,
the want flags, and exp_ppp_hdr_size = 4 (the latter is a buffer-layout
hint only and is not part of this model). -/
def openconnect_ppp_new (encap : Encap) (want_ipv4 want_ipv6 : Bool) : PppState :=
  { encap := encap
    encap_len := if encap = .f5 then 4 else 0
    hdlc := encap = .f5hdlc
    want_ipv4 := want_ipv4
    want_ipv6 := want_ipv6
    ppp_state := 0
    lcp := 0
    ipcp := 0
    ip6cp := 0
    out_asyncmap := 0
    out_lcp_opts := 0
    out_lcp_magic := 0
    out_peer_addr := [0, 0, 0, 0]
    out_ipv6_int_ident := [0, 0, 0, 0, 0, 0, 0, 0]
    in_asyncmap := 0
    in_lcp_opts := 0
    in_lcp_magic := 0
    in_peer_addr := [0, 0, 0, 0]
    in_ipv6_int_ident := [0, 0, 0, 0, 0, 0, 0, 0]
    ipInfoMtu := 0
    ipAddr := none
    ipAddr6 := none
    quitReason := none }

/-- Result of the inbound PPP-header scan of ppp_mainloop
(lines 594-623): either the protocol and the number of header bytes
consumed, or the bad_ppp_pkt exit. -/
inductive HdrResult where
  | ok (proto : Nat) (consumed : Nat)
  | badPkt
deriving DecidableEq, Repr

/-- The inbound PPP header scan, verbatim from ppp_mainloop.  The first
test is kept exactly as written in the source
(pp[0] == 0xff && pp[0] == 0x03 && load_be16(pp+6) == PPP_LCP), where the
repeated pp[0] makes the conjunction unsatisfiable; every frame therefore
takes the generic path below it. -/
def parse_ppp_header (in_lcp_opts : Nat) (pp : List Nat) : HdrResult :=
  if byteAt pp 0 = 0xff ∧ byteAt pp 0 = 0x03 ∧ load_be16 pp 6 = PPP_LCP then
    .ok PPP_LCP 4
  else
    let acc : Option Nat :=
      if in_lcp_opts &&& ACCOMP ≠ 0 then
        if byteAt pp 0 = 0xff ∧ byteAt pp 1 = 0x03 then some 2 else some 0
      else
        if byteAt pp 0 ≠ 0xff ∨ byteAt pp 1 ≠ 0x03 then none else some 2
    match acc with
    | none => .badPkt
    | some off =>
      if in_lcp_opts &&& PFCOMP ≠ 0 then
        let proto := byteAt pp off
        if proto % 2 = 0 then
          .ok (proto * 256 + byteAt pp (off + 1)) (off + 2)
        else .ok proto (off + 1)
      else .ok (load_be16 pp off) (off + 2)

/-- Read an NCP state bitmap by protocol (the proto switches of ppp.c);
defaults to the lcp field for unknown protocols, which no caller uses. -/
def ncpGet (st : PppState) (proto : Nat) : Nat :=
  if proto = PPP_LCP then st.lcp
  else if proto = PPP_IPCP then st.ipcp
  else if proto = PPP_IP6CP then st.ip6cp
  else st.lcp

/-- OR bits into the NCP state selected by proto (ncp->state |= bits). -/
def orNcp (st : PppState) (proto : Nat) (bits : Nat) : PppState :=
  if proto = PPP_LCP then { st with lcp := st.lcp ||| bits }
  else if proto = PPP_IPCP then { st with ipcp := st.ipcp ||| bits }
  else if proto = PPP_IP6CP then { st with ip6cp := st.ip6cp ||| bits }
  else st

/-- Outcome of the TLV loop of handle_config_request: the loop fell out
of its guard at cursor off, or took the unknown-option exit
(ret = -EINVAL, goto out).  State mutations made before the exit are
kept, as in the source. -/
inductive TlvLoopOut where
  | done (st : PppState) (off : Nat)
  | errored (st : PppState)
deriving DecidableEq, Repr

/-- The case labels of the option switch of handle_config_request.  The
C switch dispatches on PROTO_TAG_LEN(proto, t, l-2) =
(proto << 16) | (t << 8) | (l - 2), computed in int arithmetic; for
l ≥ 2 the three fields occupy disjoint bit ranges, so each label is hit
exactly by one (proto, tag, l) triple, and for l < 2 the scrutinee is
negative and hits no label (unknown).  tlv_case names the label an
option selects. -/
inductive TlvCase where
  | lcpMtu
  | lcpAsyncmap
  | lcpMagic
  | lcpPfcomp
  | lcpAccomp
  | ipcpComp
  | ipcpAddr
  | ip6cpIdent
  | unknown
deriving DecidableEq, Repr

def tlv_case (proto t l : Nat) : TlvCase :=
  if proto = PPP_LCP ∧ t = 1 ∧ l = 4 then .lcpMtu
  else if proto = PPP_LCP ∧ t = 2 ∧ l = 6 then .lcpAsyncmap
  else if proto = PPP_LCP ∧ t = 5 ∧ l = 6 then .lcpMagic
  else if proto = PPP_LCP ∧ t = 7 ∧ l = 2 then .lcpPfcomp
  else if proto = PPP_LCP ∧ t = 8 ∧ l = 2 then .lcpAccomp
  else if proto = PPP_IPCP ∧ t = 2 ∧ l = 4 then .ipcpComp
  else if proto = PPP_IPCP ∧ t = 3 ∧ l = 6 then .ipcpAddr
  else if proto = PPP_IP6CP ∧ t = 1 ∧ l = 10 then .ip6cpIdent
  else .unknown

def hcr_step (proto : Nat) (payload : List Nat) (st : PppState) (off : Nat)
    (next : PppState → Nat → Option TlvLoopOut) : Option TlvLoopOut :=
  if off + 1 < payload.length ∧ off + byteAt payload (off + 1) ≤ payload.length then
    match tlv_case proto (byteAt payload off) (byteAt payload (off + 1)) with
    | .lcpMtu =>
      next { st with ipInfoMtu := load_be16 payload (off + 2) }
        (off + byteAt payload (off + 1))
    | .lcpAsyncmap =>
      next { st with in_asyncmap := load_be32 payload (off + 2) }
        (off + byteAt payload (off + 1))
    | .lcpMagic =>
      next { st with in_lcp_magic := load_be32 payload (off + 2) }
        (off + byteAt payload (off + 1))
    | .lcpPfcomp =>
      next { st with in_lcp_opts := st.in_lcp_opts ||| PFCOMP }
        (off + byteAt payload (off + 1))
    | .lcpAccomp =>
      next { st with in_lcp_opts := st.in_lcp_opts ||| ACCOMP }
        (off + byteAt payload (off + 1))
    | .ipcpComp =>
      if load_be16 payload (off + 2) = 0x002d then
        next { st with in_lcp_opts := st.in_lcp_opts ||| VJCOMP }
          (off + byteAt payload (off + 1))
      else some (.errored st)
    | .ipcpAddr =>
      next { st with in_peer_addr := ((payload.drop (off + 2)).take 4) }
        (off + byteAt payload (off + 1))
    | .ip6cpIdent =>
      next { st with in_ipv6_int_ident := ((payload.drop (off + 2)).take 8) }
        (off + byteAt payload (off + 1))
    | .unknown => some (.errored st)
  else some (.done st off)

/-- The TLV loop of handle_config_request
(for (p = payload; p+1 < payload+len && p+p[1] <= payload+len; p += p[1])),
with the cursor as an offset off into payload; hcr_step is one iteration
(guard test, option dispatch, state update).  The fuel argument bounds
the number of iterations; the termination theorem for C10 shows that
payload.length + 1 iterations always suffice, every matched option
having length byte at least 2. -/
def hcr_go (proto : Nat) (payload : List Nat) :
    Nat → PppState → Nat → Option TlvLoopOut
  | 0, _, _ => none
  | fuel + 1, st, off => hcr_step proto payload st off (hcr_go proto payload fuel)

/-- Result of handle_config_request / handle_config_packet: the new
session state, the packets enqueued on the tcp control queue, and the C
return value (0 or -EINVAL = -22). -/
structure HcpResult where
  st : PppState
  queued : List QPkt
  ret : Int
deriving DecidableEq, Repr

/-- handle_config_request from ppp.c: select the NCP by protocol
(unknown protocol returns -EINVAL), run the TLV loop, and on success mark
CONF_REQ_RECEIVED, echo the whole payload back as a Configure-Ack with
the same id, and mark CONF_ACK_SENT.  On an unknown option the state
updates already made are kept, nothing is queued, and -EINVAL is
returned.  The fuel payload.length + 1 never runs out (theorem for C10);
the none branch is unreachable. -/
def handle_config_request (st : PppState) (proto id : Nat) (payload : List Nat) :
    HcpResult :=
  if proto ≠ PPP_LCP ∧ proto ≠ PPP_IPCP ∧ proto ≠ PPP_IP6CP then ⟨st, [], -22⟩
  else
    match hcr_go proto payload (payload.length + 1) st 0 with
    | none => ⟨st, [], -22⟩
    | some (.errored st') => ⟨st', [], -22⟩
    | some (.done st' _) =>
      let st'' := orNcp (orNcp st' proto NCP_CONF_REQ_RECEIVED) proto NCP_CONF_ACK_SENT
      ⟨st'', [⟨proto, id, CONFACK, payload⟩], 0⟩

/-- The set_quit_reason label of handle_config_packet: if no quit reason
is recorded yet and the packet has bytes beyond its 4-byte header, record
them (strndup stops at a NUL byte). -/
def set_quit_reason (st : PppState) (p : List Nat) : PppState :=
  if st.quitReason = none ∧ 4 < p.length then
    { st with quitReason := some (.bytes ((p.drop 4).takeWhile (fun b => b ≠ 0))) }
  else st

/-- handle_config_packet from ppp.c.  p is the packet starting at the
code byte; its length is the payload_len the mainloop computed.  The
add_state accumulator of the source is modelled exactly: note that in the
TERMREQ case it is first assigned NCP_TERM_REQ_RECEIVED and then, once
the Terminate-Ack is queued (allocation modelled as succeeding),
reassigned - not OR-ed - to NCP_TERM_ACK_SENT.  The final proto switch
ORs add_state into the selected NCP; an unknown protocol returns -EINVAL
without touching any NCP (packets already queued stay queued, as the
side effect has happened). -/
def hcp_inner (st : PppState) (proto : Nat) (p : List Nat) :
    PppState × List QPkt × Int × Nat :=
  let code := byteAt p 0
  let id := byteAt p 1
  if code = CONFREQ then
      let r := handle_config_request st proto id (p.drop 4)
      (r.st, r.queued, r.ret, 0)
    else if code = CONFACK then
      (st, [], 0, NCP_CONF_ACK_RECEIVED)
    else if code = ECHOREQ then
      if PPPS_OPENED ≤ st.ppp_state then
        (st, [⟨proto, id, ECHOREP, magicBytes st.out_lcp_magic⟩], 0, 0)
      else (st, [], 0, 0)
    else if code = TERMREQ then
      let st' := set_quit_reason st p
      ({ st' with ppp_state := PPPS_TERMINATE },
        [⟨proto, id, TERMACK, []⟩], 0, NCP_TERM_ACK_SENT)
    else if code = TERMACK then
      let st' := set_quit_reason st p
      ({ st' with ppp_state := PPPS_TERMINATE }, [], 0, NCP_TERM_ACK_RECEIVED)
  else if code = ECHOREP ∨ code = DISCREQ then
    (st, [], 0, 0)
  else (st, [], -22, 0)

/-- handle_config_packet, continued: the final proto switch ORs the
accumulated add_state into the selected NCP; an unknown protocol returns
-EINVAL without touching any NCP (packets already queued stay queued, as
that side effect has happened). -/
def handle_config_packet (st : PppState) (proto : Nat) (p : List Nat) : HcpResult :=
  let inner := hcp_inner st proto p
  if proto = PPP_LCP ∨ proto = PPP_IPCP ∨ proto = PPP_IP6CP then
    ⟨orNcp inner.1 proto inner.2.2.2, inner.2.1, inner.2.2.1⟩
  else ⟨inner.1, inner.2.1, -22⟩

/-- buf_append_ppp: append bytes, HDLC-escaped iff hdlc is set. -/
def buf_append_ppp (hdlc : Bool) (bytes : List Nat) (asyncmap : Nat) : List Nat :=
  if hdlc then buf_append_ppphdlc bytes asyncmap else bytes

/-- buf_append_ppp_tlv: tag byte, length byte (value length + 2, the
length field includes the 2-byte header), then the value bytes; header
and value are appended through buf_append_ppp separately, as in the
source. -/
def buf_append_ppp_tlv (hdlc : Bool) (asyncmap tag len : Nat) (data : List Nat) :
    List Nat :=
  buf_append_ppp hdlc [tag % 256, (len + 2) % 256] asyncmap ++
    (if len ≠ 0 then buf_append_ppp hdlc data asyncmap else [])

/-- buf_append_ppp_tlv_be16. -/
def buf_append_ppp_tlv_be16 (hdlc : Bool) (asyncmap tag value : Nat) : List Nat :=
  buf_append_ppp_tlv hdlc asyncmap tag 2 (store_be16 value)

/-- buf_append_ppp_tlv_be32. -/
def buf_append_ppp_tlv_be32 (hdlc : Bool) (asyncmap tag value : Nat) : List Nat :=
  buf_append_ppp_tlv hdlc asyncmap tag 4 (store_be32 value)

/-- queue_config_request from ppp.c: build and queue a Configure-Request
for the given protocol and mark NCP_CONF_REQ_SENT.  For LCP it first
fixes the outgoing parameters: out_asyncmap = 0, out_lcp_magic = the
bitwise complement of in_lcp_magic, out_lcp_opts = ACCOMP | PFCOMP, and a
default MTU of 1300 when the host supplied none; the LCP options are
emitted under the pre-negotiation asyncmap 0xffffffff.  inet_addr /
inet_pton parsing of the host-supplied address strings is abstracted to
the already-parsed byte forms ipAddr / ipAddr6.  An unknown protocol
queues nothing (-EINVAL). -/
def queue_config_request (st : PppState) (proto id : Nat) : PppState × Option QPkt :=
  if proto = PPP_LCP then
    let st1 := { st with
      out_asyncmap := 0
      out_lcp_magic := compl32 st.in_lcp_magic
      out_lcp_opts := ACCOMP ||| PFCOMP
      ipInfoMtu := if st.ipInfoMtu = 0 then 1300 else st.ipInfoMtu }
    let buf :=
      buf_append_ppp_tlv_be16 st1.hdlc ASYNCMAP_LCP 1 st1.ipInfoMtu ++
      buf_append_ppp_tlv_be32 st1.hdlc ASYNCMAP_LCP 2 st1.out_asyncmap ++
      buf_append_ppp_tlv st1.hdlc ASYNCMAP_LCP 5 4 (magicBytes st1.out_lcp_magic) ++
      (if st1.out_lcp_opts &&& PFCOMP ≠ 0 then
        buf_append_ppp_tlv st1.hdlc ASYNCMAP_LCP 7 0 [] else []) ++
      (if st1.out_lcp_opts &&& ACCOMP ≠ 0 then
        buf_append_ppp_tlv st1.hdlc ASYNCMAP_LCP 8 0 [] else [])
    ({ st1 with lcp := st1.lcp ||| NCP_CONF_REQ_SENT }, some ⟨proto, id, CONFREQ, buf⟩)
  else if proto = PPP_IPCP then
    let st1 := { st with out_peer_addr := st.ipAddr.getD st.out_peer_addr }
    let buf := buf_append_ppp_tlv st1.hdlc st1.out_asyncmap 3 4 st1.out_peer_addr
    ({ st1 with ipcp := st1.ipcp ||| NCP_CONF_REQ_SENT }, some ⟨proto, id, CONFREQ, buf⟩)
  else if proto = PPP_IP6CP then
    let ipv6a := st.ipAddr6.getD (List.replicate 16 0)
    let st1 := { st with out_ipv6_int_ident := (ipv6a.drop 8).take 8 }
    let buf := buf_append_ppp_tlv st1.hdlc st1.out_asyncmap 1 8 st1.out_ipv6_int_ident
    ({ st1 with ip6cp := st1.ip6cp ||| NCP_CONF_REQ_SENT }, some ⟨proto, id, CONFREQ, buf⟩)
  else (st, none)

/-- The session of spec scenario S4: a fresh F5 session that has just
processed an LCP Configure-Request carrying a Magic-Number option with
value de ad be ef. -/
def c5_state : PppState :=
  (handle_config_packet (openconnect_ppp_new .f5 true false) PPP_LCP
    [1, 1, 0, 10, 5, 6, 0xde, 0xad, 0xbe, 0xef]).st

/-- The session state carried by a TLV loop outcome. -/
def tlvSt : TlvLoopOut → PppState
  | .done s _ => s
  | .errored s => s

/-- An NCP is tested open by the source as
(state & NCP_CONF_ACK_SENT) && (state & NCP_CONF_ACK_RECEIVED). -/
def ncpOpen (s : Nat) : Prop :=
  s &&& NCP_CONF_ACK_SENT ≠ 0 ∧ s &&& NCP_CONF_ACK_RECEIVED ≠ 0

instance (s : Nat) : Decidable (ncpOpen s) := by
  unfold ncpOpen
  infer_instance

/-- The state-machine block of ppp_mainloop, retransmit part of the
PPPS_OPENED case: for each wanted IPvX NCP without CONF_ACK_RECEIVED
whose retransmit deadline (modelled by the oracle dl4/dl6) has expired,
queue a Configure-Request. -/
def sa_retransmit (st : PppState) (dl4 dl6 : Bool) : PppState :=
  let st1 :=
    if st.want_ipv4 = true ∧ st.ipcp &&& NCP_CONF_ACK_RECEIVED = 0 ∧ dl4 = true then
      (queue_config_request st PPP_IPCP 1).1
    else st
  if st1.want_ipv6 = true ∧ st1.ip6cp &&& NCP_CONF_ACK_RECEIVED = 0 ∧ dl6 = true then
    (queue_config_request st1 PPP_IP6CP 1).1
  else st1

/-- The "have we configured all the protocols we want?" check at the end
of the PPPS_OPENED case: move to PPPS_NETWORK iff every wanted IPvX NCP
has both Configure-Acks. -/
def sa_network_check (s : PppState) : PppState :=
  if (s.want_ipv4 = false ∨ ncpOpen s.ipcp) ∧ (s.want_ipv6 = false ∨ ncpOpen s.ip6cp)
  then { s with ppp_state := PPPS_NETWORK }
  else s

/-- The PPPS_OPENED case body (also reached by fallthrough). -/
def sa_opened (st : PppState) (dl4 dl6 : Bool) : PppState :=
  sa_network_check (sa_retransmit st dl4 dl6)

/-- The PPPS_ESTABLISH case body: move to OPENED when LCP has both acks
(falling through to the OPENED body); otherwise, if the LCP retransmit
deadline expired (oracle dlL), queue an LCP Configure-Request and break;
otherwise fall through to the OPENED body WITHOUT having moved to
OPENED - this last arm is the verbatim behaviour of the source, where the
else-if carries no break before the case PPPS_OPENED label. -/
def sa_establish (st : PppState) (dlL dl4 dl6 : Bool) : PppState :=
  if st.lcp &&& NCP_CONF_ACK_RECEIVED ≠ 0 ∧ st.lcp &&& NCP_CONF_ACK_SENT ≠ 0 then
    sa_opened { st with ppp_state := PPPS_OPENED } dl4 dl6
  else if dlL = true then (queue_config_request st PPP_LCP 1).1
  else sa_opened st dl4 dl6

/-- The "Handle PPP state transitions" switch at the top of ppp_mainloop
(lines 467-512), with the three ka_check_deadline results as boolean
oracles.  Returns the new state and the early-return value when the
switch returns (1 for TERMINATE and for the unexpected-state arm, which
also sets quit_reason). -/
def state_advance (st : PppState) (dlL dl4 dl6 : Bool) : PppState × Option Int :=
  if st.ppp_state = PPPS_DEAD then
    (sa_establish { st with ppp_state := PPPS_ESTABLISH } dlL dl4 dl6, none)
  else if st.ppp_state = PPPS_ESTABLISH then (sa_establish st dlL dl4 dl6, none)
  else if st.ppp_state = PPPS_OPENED then (sa_opened st dl4 dl6, none)
  else if st.ppp_state = PPPS_NETWORK then (st, none)
  else if st.ppp_state = PPPS_TERMINATE then (st, some 1)
  else ({ st with quitReason := some .unexpectedState }, some 1)

/-- The NETWORK-side invariant that actually holds of the code: whenever
the session is in PPPS_NETWORK, every wanted IPvX NCP has both
Configure-Acks.  (The claim's additional LCP conjunct is refuted by
c7_counterexample.) -/
def netInv (st : PppState) : Prop :=
  st.ppp_state = PPPS_NETWORK →
    (st.want_ipv4 = true → ncpOpen st.ipcp) ∧ (st.want_ipv6 = true → ncpOpen st.ip6cp)

instance (st : PppState) : Decidable (netInv st) := by
  unfold netInv
  infer_instance

/-- What one iteration of the mainloop's receive loop does with a read
buffer: discard it and continue (bad outer encapsulation), return a
terminal value, hand it to handle_config_packet, enqueue its payload on
the incoming IP queue, or log-and-drop an IP packet received outside
NETWORK. -/
inductive RxStep where
  | discard
  | terminate (ret : Int)
  | config (r : HcpResult)
  | enqueueData (payload : List Nat)
  | dropData
deriving DecidableEq, Repr

/-- One iteration of the receive loop of ppp_mainloop (lines 553-676)
for a buffer ph of len > 0 bytes under F5 encapsulation: the short-read
check (len < 8 is fatal with quit_reason "Short packet received"), the
pre-PPP header check (bad magic or length mismatch logs and discards,
continuing the loop with nothing changed), the PPP header scan
(bad_ppp_pkt returns 1 WITHOUT setting quit_reason), then dispatch by
protocol: the three config protocols go to handle_config_packet after
the payload-length consistency check; IP/IPv6 data is enqueued iff the
session is in NETWORK and otherwise logged and dropped; an unknown
protocol returns 1 (again without quit_reason). -/
def process_f5_frame (st : PppState) (ph : List Nat) : RxStep × PppState :=
  if ph.length < 8 then
    (.terminate 1, { st with quitReason := some .shortPacket })
  else if load_be16 ph 0 ≠ 0xf500 then (.discard, st)
  else if ph.length ≠ 4 + load_be16 ph 2 then (.discard, st)
  else
    match parse_ppp_header st.in_lcp_opts (ph.drop 4) with
    | .badPkt => (.terminate 1, st)
    | .ok proto consumed =>
      if proto = PPP_LCP ∨ proto = PPP_IPCP ∨ proto = PPP_IP6CP then
        if load_be16 ph 2 - consumed < 4 ∨
            load_be16 ((ph.drop 4).drop consumed) 2 ≠ load_be16 ph 2 - consumed then
          (.terminate 1, st)
        else
          (.config (handle_config_packet st proto ((ph.drop 4).drop consumed)),
            (handle_config_packet st proto ((ph.drop 4).drop consumed)).st)
      else if proto = PPP_IP ∨ proto = PPP_IP6 then
        if st.ppp_state ≠ PPPS_NETWORK then (.dropData, st)
        else (.enqueueData ((ph.drop 4).drop consumed), st)
      else (.terminate 1, st)

/-- The egress PPP protocol field of ppp_mainloop (lines 769-771),
written in reverse into the headroom: the low byte always, the high byte
unless the protocol fits in one byte and PFCOMP is among the outgoing
LCP options. -/
def ppp_hdr_protocol (out_lcp_opts proto : Nat) : List Nat :=
  if 0xff < proto ∨ out_lcp_opts &&& PFCOMP = 0 then
    [proto / 256 % 256, proto % 256]
  else [proto % 256]

/-- The egress address/control pair (lines 772-775): ff 03 for LCP
frames and whenever ACCOMP is not among the outgoing LCP options. -/
def ppp_hdr_addrctrl (out_lcp_opts proto : Nat) : List Nat :=
  if proto = PPP_LCP ∨ out_lcp_opts &&& ACCOMP = 0 then [0xff, 0x03] else []

/-- The complete egress PPP header. -/
def build_ppp_header (out_lcp_opts proto : Nat) : List Nat :=
  ppp_hdr_addrctrl out_lcp_opts proto ++ ppp_hdr_protocol out_lcp_opts proto

/-- A fresh F5 session right after it queues its first LCP
Configure-Request (which sets out_lcp_opts = ACCOMP | PFCOMP) and before
the peer has advertised any option (in_lcp_opts still 0). -/
def c9_state : PppState :=
  (queue_config_request (openconnect_ppp_new .f5 true false) PPP_LCP 1).1

/-- A session reachable in four steps from a fresh F5 want-ipv4 session:
tick 1 advances DEAD to ESTABLISH and queues the first LCP
Configure-Request (deadline oracle true); the peer then sends an
optionless IPCP Configure-Request and an IPCP Configure-Ack, both as
well-formed F5 frames through the receive path; tick 2 runs with the LCP
retransmit deadline not yet expired. -/
def c7_state : PppState :=
  (state_advance
    (process_f5_frame
      (process_f5_frame
        ((state_advance (openconnect_ppp_new .f5 true false) true false false).1)
        [0xf5, 0, 0, 8, 0xff, 0x03, 0x80, 0x21, 1, 1, 0, 4]).2
      [0xf5, 0, 0, 8, 0xff, 0x03, 0x80, 0x21, 2, 1, 0, 4]).2
    false false false).1

end OcPPP

namespace OcPPP

/-- C1: the HDLC escaper in the source disagrees with the claim.  Three
evaluations of the embedded code exhibit the divergence: (a) an input
[0x41] with asyncmap 0 must pass through verbatim per the claim, but the
code emits nothing (bytes after the last escape are never flushed);
(b) on [0x41, 0x7e] the code drops the 0x41 preceding the escaped 0x7e
(the run is appended with length i - s - 1); (c) with asyncmap 1 the
byte 0x01 - whose asyncmap bit 1 is clear - must not be escaped per the
claim, but the code escapes it because it tests map && (1 << c) instead
of map & (1 << c).  The spec-side escaper gives the claimed outputs. -/
theorem c1_hdlc_escaper_divergence :
    buf_append_ppphdlc [0x41] 0 = [] ∧
    buf_append_ppphdlc [0x41, 0x7e] 0 = [0x7d, 0x5e] ∧
    buf_append_ppphdlc [0x01] 1 = [0x7d, 0x21] ∧
    hdlc_escape_spec [0x41] 0 = [0x41] ∧
    hdlc_escape_spec [0x41, 0x7e] 0 = [0x41, 0x7d, 0x5e] ∧
    hdlc_escape_spec [0x01] 1 = [0x01] := by
  refine ⟨rfl, rfl, rfl, ?_, ?_, ?_⟩ <;> decide

/-- C2: a received frame whose bytes after the outer encapsulation start
with ff 03 c0 21 is parsed as protocol LCP with exactly 4 header bytes
consumed, whatever the negotiated ACCOMP/PFCOMP options are.  (The
source's dedicated LCP test is dead code - its condition repeats pp[0] -
but the generic path reaches the same result for every option set.) -/
theorem c2_lcp_ingress_header (opts : Nat) (rest : List Nat) :
    parse_ppp_header opts (0xff :: 0x03 :: 0xc0 :: 0x21 :: rest) = .ok PPP_LCP 4 := by
  have hb0 : byteAt (0xff :: 0x03 :: 0xc0 :: 0x21 :: rest) 0 = 0xff := rfl
  have hb1 : byteAt (0xff :: 0x03 :: 0xc0 :: 0x21 :: rest) 1 = 0x03 := rfl
  have hb2 : byteAt (0xff :: 0x03 :: 0xc0 :: 0x21 :: rest) 2 = 0xc0 := rfl
  have hb3 : byteAt (0xff :: 0x03 :: 0xc0 :: 0x21 :: rest) 3 = 0x21 := rfl
  by_cases hA : opts &&& ACCOMP ≠ 0 <;>
    by_cases hP : opts &&& PFCOMP ≠ 0 <;>
      simp only [parse_ppp_header, hA, hP, hb0, hb1, hb2, hb3, load_be16, if_true,
        if_false, ite_true, ite_false, eq_self_iff_true, true_and, and_true] <;>
      norm_num <;>
      first
      | (rw [hb2, hb3]; decide)
      | (rw [if_neg hP, hb2, if_pos (by decide), hb3]; decide)

/-- Helper for C10: the TLV loop halts before exhausting its fuel
whenever the fuel exceeds the bytes remaining after the cursor.  Every
option the loop steps over has length byte at least 2 (the case labels
fix l to 2, 4, 6 or 10), so the cursor strictly advances and the
remaining distance drops faster than the fuel. -/
theorem tlv_case_len (p t l : Nat) (h : tlv_case p t l ≠ .unknown) : 2 ≤ l := by
  unfold tlv_case at h
  split_ifs at h <;> first | omega | exact absurd rfl h

theorem hcr_go_fuel_ok (proto : Nat) (payload : List Nat) :
    ∀ fuel st off, off ≤ payload.length → payload.length < fuel + off →
      (hcr_go proto payload fuel st off).isSome := by
  intro fuel
  induction fuel with
  | zero =>
    intro st off h1 h2
    exact absurd h2 (by omega)
  | succ fuel ih =>
    intro st off h1 h2
    show (hcr_step proto payload st off (hcr_go proto payload fuel)).isSome
    unfold hcr_step
    by_cases hg : off + 1 < payload.length ∧
        off + byteAt payload (off + 1) ≤ payload.length
    · rw [if_pos hg]
      obtain ⟨hg1, hg2⟩ := hg
      repeat' split
      all_goals first
      | rfl
      | (apply ih
         · omega
         · have hlen : (2:Nat) ≤ byteAt payload (off + 1) := by
             apply tlv_case_len proto (byteAt payload off)
             intro hu
             simp_all
           omega)
    · rw [if_neg hg]
      rfl

/-- C10: handle_config_request terminates on every finite option
payload.  The TLV loop is modelled with a fuel counter, one unit per
iteration of the C for-loop; with fuel payload.length + 1 the loop always
reaches a result (first conjunct), i.e. the source loop performs at most
payload.length + 1 iterations.  In particular an option whose length
byte is 0 or 1 cannot stall the loop: its (proto, tag, length) triple
matches no case label (the C switch value (proto<<16)|(tag<<8)|(l-2) is
negative), so the very next step takes the unknown-option exit
(second and third conjuncts). -/
theorem c10_tlv_loop_terminates (proto : Nat) (payload : List Nat) (st : PppState) :
    (hcr_go proto payload (payload.length + 1) st 0).isSome ∧
    (∀ t rest fuel, hcr_go proto (t :: 0 :: rest) (fuel + 1) st 0 = some (.errored st)) ∧
    (∀ t rest fuel, hcr_go proto (t :: 1 :: rest) (fuel + 1) st 0 = some (.errored st)) := by
  refine ⟨hcr_go_fuel_ok proto payload _ st 0 (by omega) (by omega), ?_, ?_⟩ <;>
  · intro t rest fuel
    show hcr_step proto _ st 0 (hcr_go proto _ fuel) = some (.errored st)
    simp [hcr_step, tlv_case, byteAt]

/-- C8: a received Echo-Request (code 9) with id N produces exactly one
Echo-Reply (code 10) with the same id and the 4 bytes of the local magic
(out_lcp_magic) as payload when the session is OPENED or later, and
nothing is queued when the session is below OPENED. -/
theorem c8_echo_request_reply (st : PppState) (proto : Nat) (p : List Nat)
    (hcode : byteAt p 0 = ECHOREQ) :
    (handle_config_packet st proto p).queued =
      if PPPS_OPENED ≤ st.ppp_state then
        [⟨proto, byteAt p 1, ECHOREP, magicBytes st.out_lcp_magic⟩]
      else [] := by
  by_cases hs : PPPS_OPENED ≤ st.ppp_state <;>
    by_cases hp : proto = PPP_LCP ∨ proto = PPP_IPCP ∨ proto = PPP_IP6CP <;>
      simp [handle_config_packet, hcp_inner, hcode, hs, hp, ECHOREQ, CONFREQ, CONFACK,
        TERMREQ, TERMACK, ECHOREP, DISCREQ]

/-- C8 witness: in a session that has just reached OPENED, an
Echo-Request with id 5 yields exactly one Echo-Reply with id 5 carrying
the 4 magic bytes. -/
theorem c8_witness :
    (handle_config_packet { openconnect_ppp_new .f5 true false with ppp_state := 2 }
        PPP_LCP [9, 5, 0, 4]).queued = [⟨PPP_LCP, 5, ECHOREP, [0, 0, 0, 0]⟩] :=
  Eq.trans
    (c8_echo_request_reply { openconnect_ppp_new .f5 true false with ppp_state := 2 }
      PPP_LCP [9, 5, 0, 4] (by decide))
    (by decide)

/-- C6 counterexample: the claim says a Terminate-Request marks
NCP_TERM_REQ_RECEIVED (bit value 32) in the NCP's state.  It does not:
on the path where the Terminate-Ack is queued, the source reassigns
add_state to NCP_TERM_ACK_SENT (16) instead of OR-ing it, so starting
from a fresh session the LCP state after a Terminate-Request is exactly
16 and bit 32 is clear - even though the Terminate-Ack is queued and the
session does move to TERMINATE. -/
theorem c6_counterexample :
    (handle_config_packet (openconnect_ppp_new .f5 true false) PPP_LCP
        [5, 7, 0, 4]).st.lcp &&& NCP_TERM_REQ_RECEIVED = 0 ∧
    (handle_config_packet (openconnect_ppp_new .f5 true false) PPP_LCP
        [5, 7, 0, 4]).st.lcp = 16 ∧
    (handle_config_packet (openconnect_ppp_new .f5 true false) PPP_LCP
        [5, 7, 0, 4]).queued = [⟨PPP_LCP, 7, TERMACK, []⟩] := by
  decide

/-- C6 amended: a received Terminate-Request on a known NCP enqueues
exactly one Terminate-Ack with the same id, ORs only NCP_TERM_ACK_SENT
into that NCP's state (the pending NCP_TERM_REQ_RECEIVED mark is
overwritten before it is applied), records the bytes after the 4-byte
header (up to a NUL) as the quit reason when none is set and such bytes
exist, and transitions the session to TERMINATE. -/
theorem c6_amended_termreq (st : PppState) (proto : Nat) (p : List Nat)
    (hproto : proto = PPP_LCP ∨ proto = PPP_IPCP ∨ proto = PPP_IP6CP)
    (hcode : byteAt p 0 = TERMREQ) :
    (handle_config_packet st proto p).queued = [⟨proto, byteAt p 1, TERMACK, []⟩] ∧
    (handle_config_packet st proto p).st.ppp_state = PPPS_TERMINATE ∧
    ncpGet (handle_config_packet st proto p).st proto =
      ncpGet st proto ||| NCP_TERM_ACK_SENT ∧
    (handle_config_packet st proto p).st.quitReason =
      (if st.quitReason = none ∧ 4 < p.length then
        some (.bytes ((p.drop 4).takeWhile (fun b => b ≠ 0)))
      else st.quitReason) := by
  rcases hproto with hp | hp | hp <;>
    subst hp <;>
      by_cases hq : st.quitReason = none ∧ 4 < p.length <;>
        simp [handle_config_packet, hcp_inner, hcode, set_quit_reason, orNcp, ncpGet, hq,
          apply_ite, TERMREQ, CONFREQ, CONFACK, ECHOREQ, PPP_LCP, PPP_IPCP, PPP_IP6CP]

/-- C6 witness: a Terminate-Request with id 7 and one trailing byte 0x41
on LCP of a fresh session: exactly one Terminate-Ack with id 7 is queued,
only bit 16 is set in the LCP state, the quit reason records [0x41], and
the session is TERMINATE. -/
theorem c6_witness :
    (handle_config_packet (openconnect_ppp_new .f5 true false) PPP_LCP
        [5, 7, 0, 5, 0x41]).queued = [⟨PPP_LCP, 7, TERMACK, []⟩] ∧
    (handle_config_packet (openconnect_ppp_new .f5 true false) PPP_LCP
        [5, 7, 0, 5, 0x41]).st.ppp_state = PPPS_TERMINATE ∧
    ncpGet (handle_config_packet (openconnect_ppp_new .f5 true false) PPP_LCP
        [5, 7, 0, 5, 0x41]).st PPP_LCP =
      ncpGet (openconnect_ppp_new .f5 true false) PPP_LCP ||| NCP_TERM_ACK_SENT ∧
    (handle_config_packet (openconnect_ppp_new .f5 true false) PPP_LCP
        [5, 7, 0, 5, 0x41]).st.quitReason =
      (if (openconnect_ppp_new .f5 true false).quitReason = none ∧
          4 < [5, 7, 0, 5, 0x41].length then
        some (.bytes (([5, 7, 0, 5, 0x41].drop 4).takeWhile (fun b => b ≠ 0)))
      else (openconnect_ppp_new .f5 true false).quitReason) :=
  c6_amended_termreq (openconnect_ppp_new .f5 true false) PPP_LCP
    [5, 7, 0, 5, 0x41] (Or.inl rfl) (by decide)

/-- C5: an outgoing LCP Configure-Request built by queue_config_request
chooses out_lcp_magic as the bitwise complement of in_lcp_magic (so the
two always differ), and the queued request's option payload carries that
complement as its Magic-Number option (tag 5, length 6).  The payload
form is stated for a non-HDLC (F5) session: under F5-HDLC the option
bytes additionally pass through the byte-stuffer, whose defect is the
subject of C1. -/
theorem c5_lcp_magic_complement (st : PppState) (id : Nat)
    (hh : st.hdlc = false) (hm : st.in_lcp_magic < 2 ^ 32) :
    (queue_config_request st PPP_LCP id).1.out_lcp_magic = compl32 st.in_lcp_magic ∧
    (queue_config_request st PPP_LCP id).1.out_lcp_magic ≠ st.in_lcp_magic ∧
    (queue_config_request st PPP_LCP id).2 = some ⟨PPP_LCP, id, CONFREQ,
      [1, 4] ++ store_be16 (if st.ipInfoMtu = 0 then 1300 else st.ipInfoMtu) ++
      [2, 6, 0, 0, 0, 0] ++
      [5, 6] ++ magicBytes (compl32 st.in_lcp_magic) ++
      [7, 2] ++ [8, 2]⟩ := by
  have h1 : (queue_config_request st PPP_LCP id).1.out_lcp_magic =
      compl32 st.in_lcp_magic := by
    simp [queue_config_request]
  refine ⟨h1, ?_, ?_⟩
  · rw [h1, compl32]
    omega
  · simp [queue_config_request, buf_append_ppp_tlv_be16, buf_append_ppp_tlv_be32,
      buf_append_ppp_tlv, buf_append_ppp, hh, store_be16, store_be32, magicBytes,
      ACCOMP, PFCOMP, CONFREQ, PPP_LCP]

/-- C5 witness (spec scenario S4): after the peer's Configure-Request
with magic de ad be ef, the next outgoing LCP Configure-Request of the
F5 session carries magic 21 52 41 10, the complement. -/
theorem c5_witness :
    c5_state.hdlc = false ∧ c5_state.in_lcp_magic = 0xdeadbeef ∧
    (queue_config_request c5_state PPP_LCP 1).1.out_lcp_magic = 0x21524110 ∧
    (queue_config_request c5_state PPP_LCP 1).1.out_lcp_magic ≠ c5_state.in_lcp_magic ∧
    (queue_config_request c5_state PPP_LCP 1).2 = some ⟨PPP_LCP, 1, CONFREQ,
      [1, 4, 5, 20, 2, 6, 0, 0, 0, 0, 5, 6, 0x21, 0x52, 0x41, 0x10, 7, 2, 8, 2]⟩ := by
  have h := c5_lcp_magic_complement c5_state 1 (by decide) (by decide)
  exact ⟨by decide, by decide, h.1.trans (by decide), h.2.1, h.2.2.trans (by decide)⟩

/-- A bit already set survives an OR. -/
theorem lor_and_ne_zero (a b m : Nat) (h : a &&& m ≠ 0) : (a ||| b) &&& m ≠ 0 := by
  intro h0
  apply h
  apply Nat.eq_of_testBit_eq
  intro i
  have hb := congrArg (fun x => Nat.testBit x i) h0
  simp only [Nat.testBit_land, Nat.testBit_lor, Nat.zero_testBit] at hb ⊢
  cases hA : Nat.testBit a i <;> cases hM : Nat.testBit m i <;> simp_all

/-- queue_config_request leaves ppp_state and the want flags alone and
only ever ORs bits into the NCP bitmaps. -/
theorem queue_config_request_fields (st : PppState) (proto id : Nat) :
    ((queue_config_request st proto id).1).ppp_state = st.ppp_state ∧
    ((queue_config_request st proto id).1).want_ipv4 = st.want_ipv4 ∧
    ((queue_config_request st proto id).1).want_ipv6 = st.want_ipv6 ∧
    (∀ m, st.ipcp &&& m ≠ 0 → ((queue_config_request st proto id).1).ipcp &&& m ≠ 0) ∧
    (∀ m, st.ip6cp &&& m ≠ 0 → ((queue_config_request st proto id).1).ip6cp &&& m ≠ 0) := by
  unfold queue_config_request
  split_ifs <;> refine ⟨rfl, rfl, rfl, ?_, ?_⟩ <;> intro m hm <;>
    first
    | exact hm
    | exact lor_and_ne_zero _ _ _ hm

theorem qcr_ppp_state (st : PppState) (proto id : Nat) :
    ((queue_config_request st proto id).1).ppp_state = st.ppp_state :=
  (queue_config_request_fields st proto id).1

/-- A session not in NETWORK satisfies the NETWORK invariant vacuously. -/
theorem netInv_of_ne (s : PppState) (h : s.ppp_state ≠ PPPS_NETWORK) : netInv s :=
  fun h4 => absurd h4 h

theorem sa_retransmit_ppp_state (st : PppState) (dl4 dl6 : Bool) :
    (sa_retransmit st dl4 dl6).ppp_state = st.ppp_state := by
  simp [sa_retransmit, apply_ite PppState.ppp_state, qcr_ppp_state]

/-- The NETWORK check establishes the invariant whenever its input is
not already in NETWORK: it moves to NETWORK only under the very
condition the invariant asserts. -/
theorem sa_network_check_netInv (s : PppState) (hs : s.ppp_state ≠ PPPS_NETWORK) :
    netInv (sa_network_check s) := by
  unfold sa_network_check
  split_ifs with hC
  · intro _
    constructor
    · intro hw
      have hw2 : s.want_ipv4 = true := hw
      rcases hC.1 with hf | ho
      · rw [hw2] at hf
        exact absurd hf (by decide)
      · exact ho
    · intro hw
      have hw2 : s.want_ipv6 = true := hw
      rcases hC.2 with hf | ho
      · rw [hw2] at hf
        exact absurd hf (by decide)
      · exact ho
  · exact netInv_of_ne _ hs

theorem sa_opened_netInv (st : PppState) (dl4 dl6 : Bool)
    (h : st.ppp_state ≠ PPPS_NETWORK) : netInv (sa_opened st dl4 dl6) :=
  sa_network_check_netInv _ (by rw [sa_retransmit_ppp_state]; exact h)

theorem sa_establish_netInv (st : PppState) (dlL dl4 dl6 : Bool)
    (h : st.ppp_state ≠ PPPS_NETWORK) : netInv (sa_establish st dlL dl4 dl6) := by
  unfold sa_establish
  split_ifs with h1 h2
  · exact sa_opened_netInv _ _ _ (by simp [PPPS_OPENED, PPPS_NETWORK])
  · exact netInv_of_ne _ (by rw [qcr_ppp_state]; exact h)
  · exact sa_opened_netInv _ _ _ h

/-- The state-transition switch preserves the NETWORK invariant. -/
theorem state_advance_netInv (st : PppState) (dlL dl4 dl6 : Bool) (h : netInv st) :
    netInv (state_advance st dlL dl4 dl6).1 := by
  unfold state_advance
  split_ifs with h0 h1 h2 h4 h5
  · exact sa_establish_netInv _ _ _ _ (by simp [PPPS_ESTABLISH, PPPS_NETWORK])
  · exact sa_establish_netInv _ _ _ _ (by rw [h1]; decide)
  · exact sa_opened_netInv _ _ _ (by rw [h2]; decide)
  · exact h
  · exact netInv_of_ne _ (by rw [h5]; decide)
  · exact netInv_of_ne _ h4

/-- The TLV loop touches only the incoming-parameter fields: phase, NCP
bitmaps and want flags pass through unchanged. -/
theorem hcr_go_preserves (proto : Nat) (payload : List Nat) :
    ∀ fuel st off out, hcr_go proto payload fuel st off = some out →
      (tlvSt out).ppp_state = st.ppp_state ∧ (tlvSt out).lcp = st.lcp ∧
      (tlvSt out).ipcp = st.ipcp ∧ (tlvSt out).ip6cp = st.ip6cp ∧
      (tlvSt out).want_ipv4 = st.want_ipv4 ∧ (tlvSt out).want_ipv6 = st.want_ipv6 := by
  intro fuel
  induction fuel with
  | zero =>
    intro st off out h
    simp [hcr_go] at h
  | succ fuel ih =>
    intro st off out h
    replace h : hcr_step proto payload st off (hcr_go proto payload fuel) = some out := h
    unfold hcr_step at h
    repeat' split at h
    all_goals first
    | (injection h with h2
       subst h2
       exact ⟨rfl, rfl, rfl, rfl, rfl, rfl⟩)
    | (have hv := ih _ _ _ h
       exact hv)

theorem orNcp_fields (s : PppState) (proto bits : Nat) :
    (orNcp s proto bits).ppp_state = s.ppp_state ∧
    (orNcp s proto bits).want_ipv4 = s.want_ipv4 ∧
    (orNcp s proto bits).want_ipv6 = s.want_ipv6 ∧
    (∀ m, s.ipcp &&& m ≠ 0 → (orNcp s proto bits).ipcp &&& m ≠ 0) ∧
    (∀ m, s.ip6cp &&& m ≠ 0 → (orNcp s proto bits).ip6cp &&& m ≠ 0) := by
  unfold orNcp
  split_ifs <;> refine ⟨rfl, rfl, rfl, ?_, ?_⟩ <;> intro m hm <;>
    first
    | exact hm
    | exact lor_and_ne_zero _ _ _ hm

theorem set_quit_reason_fields (st : PppState) (p : List Nat) :
    (set_quit_reason st p).ppp_state = st.ppp_state ∧
    (set_quit_reason st p).want_ipv4 = st.want_ipv4 ∧
    (set_quit_reason st p).want_ipv6 = st.want_ipv6 ∧
    (set_quit_reason st p).ipcp = st.ipcp ∧
    (set_quit_reason st p).ip6cp = st.ip6cp := by
  unfold set_quit_reason
  split_ifs <;> exact ⟨rfl, rfl, rfl, rfl, rfl⟩

/-- handle_config_request preserves phase and want flags and only ORs
bits into the NCP bitmaps. -/
theorem handle_config_request_shape (st : PppState) (proto id : Nat) (payload : List Nat) :
    (handle_config_request st proto id payload).st.ppp_state = st.ppp_state ∧
    (handle_config_request st proto id payload).st.want_ipv4 = st.want_ipv4 ∧
    (handle_config_request st proto id payload).st.want_ipv6 = st.want_ipv6 ∧
    (∀ m, st.ipcp &&& m ≠ 0 →
      (handle_config_request st proto id payload).st.ipcp &&& m ≠ 0) ∧
    (∀ m, st.ip6cp &&& m ≠ 0 →
      (handle_config_request st proto id payload).st.ip6cp &&& m ≠ 0) := by
  unfold handle_config_request
  split_ifs with hpr
  · exact ⟨rfl, rfl, rfl, fun m hm => hm, fun m hm => hm⟩
  · rcases hr : hcr_go proto payload (payload.length + 1) st 0 with _ | out
    · exact ⟨rfl, rfl, rfl, fun m hm => hm, fun m hm => hm⟩
    · obtain ⟨e1, e2, e3, e4, e5, e6⟩ := hcr_go_preserves proto payload _ st 0 out hr
      cases out with
      | errored s =>
        have e1' : s.ppp_state = st.ppp_state := e1
        have e3' : s.ipcp = st.ipcp := e3
        have e4' : s.ip6cp = st.ip6cp := e4
        have e5' : s.want_ipv4 = st.want_ipv4 := e5
        have e6' : s.want_ipv6 = st.want_ipv6 := e6
        exact ⟨e1', e5', e6', fun m hm => by rw [e3']; exact hm,
          fun m hm => by rw [e4']; exact hm⟩
      | done s off2 =>
        have e1' : s.ppp_state = st.ppp_state := e1
        have e3' : s.ipcp = st.ipcp := e3
        have e4' : s.ip6cp = st.ip6cp := e4
        have e5' : s.want_ipv4 = st.want_ipv4 := e5
        have e6' : s.want_ipv6 = st.want_ipv6 := e6
        have o1 := orNcp_fields s proto NCP_CONF_REQ_RECEIVED
        have o2 := orNcp_fields (orNcp s proto NCP_CONF_REQ_RECEIVED) proto
          NCP_CONF_ACK_SENT
        refine ⟨(o2.1.trans o1.1).trans e1',
          (o2.2.1.trans o1.2.1).trans e5',
          (o2.2.2.1.trans o1.2.2.1).trans e6', ?_, ?_⟩
        · intro m hm
          exact o2.2.2.2.1 m (o1.2.2.2.1 m (by rw [e3']; exact hm))
        · intro m hm
          exact o2.2.2.2.2 m (o1.2.2.2.2 m (by rw [e4']; exact hm))

/-- handle_config_packet either keeps the phase or moves it to
TERMINATE, keeps the want flags, and only ORs bits into the NCP
bitmaps. -/
theorem handle_config_packet_shape (st : PppState) (proto : Nat) (p : List Nat) :
    ((handle_config_packet st proto p).st.ppp_state = st.ppp_state ∨
      (handle_config_packet st proto p).st.ppp_state = PPPS_TERMINATE) ∧
    (handle_config_packet st proto p).st.want_ipv4 = st.want_ipv4 ∧
    (handle_config_packet st proto p).st.want_ipv6 = st.want_ipv6 ∧
    (∀ m, st.ipcp &&& m ≠ 0 → (handle_config_packet st proto p).st.ipcp &&& m ≠ 0) ∧
    (∀ m, st.ip6cp &&& m ≠ 0 → (handle_config_packet st proto p).st.ip6cp &&& m ≠ 0) := by
  have hin : ((hcp_inner st proto p).1.ppp_state = st.ppp_state ∨
      (hcp_inner st proto p).1.ppp_state = PPPS_TERMINATE) ∧
      (hcp_inner st proto p).1.want_ipv4 = st.want_ipv4 ∧
      (hcp_inner st proto p).1.want_ipv6 = st.want_ipv6 ∧
      (∀ m, st.ipcp &&& m ≠ 0 → (hcp_inner st proto p).1.ipcp &&& m ≠ 0) ∧
      (∀ m, st.ip6cp &&& m ≠ 0 → (hcp_inner st proto p).1.ip6cp &&& m ≠ 0) := by
    simp only [hcp_inner]
    have hq := set_quit_reason_fields st p
    split_ifs <;>
      first
      | (obtain ⟨a1, a2, a3, a4, a5⟩ :=
          handle_config_request_shape st proto (byteAt p 1) (p.drop 4)
         exact ⟨Or.inl a1, a2, a3, a4, a5⟩)
      | exact ⟨Or.inl rfl, rfl, rfl, fun m hm => hm, fun m hm => hm⟩
      | exact ⟨Or.inr rfl, hq.2.1, hq.2.2.1,
          fun m hm => by rw [hq.2.2.2.1]; exact hm,
          fun m hm => by rw [hq.2.2.2.2]; exact hm⟩
  simp only [handle_config_packet]
  split_ifs with hpr
  · have ho := orNcp_fields (hcp_inner st proto p).1 proto (hcp_inner st proto p).2.2.2
    rcases hin.1 with he | he
    · exact ⟨Or.inl (ho.1.trans he), ho.2.1.trans hin.2.1, ho.2.2.1.trans hin.2.2.1,
        fun m hm => ho.2.2.2.1 m (hin.2.2.2.1 m hm),
        fun m hm => ho.2.2.2.2 m (hin.2.2.2.2 m hm)⟩
    · exact ⟨Or.inr (ho.1.trans he), ho.2.1.trans hin.2.1, ho.2.2.1.trans hin.2.2.1,
        fun m hm => ho.2.2.2.1 m (hin.2.2.2.1 m hm),
        fun m hm => ho.2.2.2.2 m (hin.2.2.2.2 m hm)⟩
  · exact hin

/-- C7 counterexample: the claimed invariant "NETWORK implies LCP has
both Configure-Acks" fails on a reachable state.  From a fresh F5
want-ipv4 session: tick 1 (retransmit deadline expired) queues the LCP
Configure-Request; the peer sends an optionless IPCP Configure-Request
and an IPCP Configure-Ack, opening IPCP while LCP has no acks; tick 2
(LCP deadline not expired) falls through from the ESTABLISH case into
the OPENED body - the source has no break there - whose final check
tests only the IPvX NCPs and moves the session to NETWORK with
lcp = NCP_CONF_REQ_SENT only. -/
theorem c7_counterexample :
    c7_state.ppp_state = PPPS_NETWORK ∧ c7_state.lcp = NCP_CONF_REQ_SENT ∧
    c7_state.lcp &&& NCP_CONF_ACK_SENT = 0 ∧
    c7_state.lcp &&& NCP_CONF_ACK_RECEIVED = 0 ∧ ¬ ncpOpen c7_state.lcp := by
  decide

/-- C7 amended: the invariant that does hold and is preserved by every
state-machine step of ppp_mainloop (the transition switch with arbitrary
deadline-oracle values, incoming config-packet processing, and
Configure-Request emission): whenever ppp_state is NETWORK, each wanted
IPvX NCP has both CONF_ACK_SENT and CONF_ACK_RECEIVED.  The claim's
further LCP conjunct is dropped: it is refuted by c7_counterexample. -/
theorem c7_amended_network_invariant (st : PppState) (h : netInv st) :
    (∀ dlL dl4 dl6, netInv (state_advance st dlL dl4 dl6).1) ∧
    (∀ proto p, netInv (handle_config_packet st proto p).st) ∧
    (∀ ph, netInv (process_f5_frame st ph).2) ∧
    (∀ proto id, netInv (queue_config_request st proto id).1) := by
  have hhcp : ∀ proto p, netInv (handle_config_packet st proto p).st := by
    intro proto p
    obtain ⟨hps, hw4, hw6, h4m, h6m⟩ := handle_config_packet_shape st proto p
    intro hN
    rcases hps with he | he
    · rw [hN] at he
      obtain ⟨g4, g6⟩ := h he.symm
      constructor
      · intro hw
        rw [hw4] at hw
        obtain ⟨b1, b2⟩ := g4 hw
        exact ⟨h4m _ b1, h4m _ b2⟩
      · intro hw
        rw [hw6] at hw
        obtain ⟨b1, b2⟩ := g6 hw
        exact ⟨h6m _ b1, h6m _ b2⟩
    · rw [hN] at he
      exact absurd he (by decide)
  refine ⟨fun dlL dl4 dl6 => state_advance_netInv st dlL dl4 dl6 h, hhcp, ?_, ?_⟩
  · intro ph
    unfold process_f5_frame
    repeat' split
    all_goals first
    | exact h
    | exact hhcp _ _
  · intro proto id
    obtain ⟨hps, hw4, hw6, h4m, h6m⟩ := queue_config_request_fields st proto id
    intro hN
    rw [hN] at hps
    obtain ⟨g4, g6⟩ := h hps.symm
    constructor
    · intro hw
      rw [hw4] at hw
      obtain ⟨b1, b2⟩ := g4 hw
      exact ⟨h4m _ b1, h4m _ b2⟩
    · intro hw
      rw [hw6] at hw
      obtain ⟨b1, b2⟩ := g6 hw
      exact ⟨h6m _ b1, h6m _ b2⟩

/-- C7 witness: the fresh session satisfies the invariant, and so does
the state after a first state-machine tick. -/
theorem c7_witness :
    netInv (openconnect_ppp_new .f5 true false) ∧
    netInv (state_advance (openconnect_ppp_new .f5 true false) true false false).1 :=
  ⟨by decide,
    (c7_amended_network_invariant (openconnect_ppp_new .f5 true false) (by decide)).1
      true false false⟩

/-- C4 counterexample: the claim quantifies over every received buffer,
but a buffer shorter than 8 bytes whose first two bytes are not f5 00 is
not discarded: the short-read check runs first, sets quit_reason and
terminates the session.  Here a 5-byte read [00 00 00 01 00]. -/
theorem c4_counterexample :
    (process_f5_frame (openconnect_ppp_new .f5 true false) [0, 0, 0, 1, 0]).1 =
      .terminate 1 ∧
    (process_f5_frame (openconnect_ppp_new .f5 true false)
        [0, 0, 0, 1, 0]).2.quitReason = some .shortPacket := by
  decide

/-- C4 amended: for every received buffer of at least 8 bytes under F5
encapsulation, a magic other than f5 00 or a total length different from
4 + the announced payload length makes the mainloop discard the packet
and continue the read loop with the session state (and so every NCP
state) unchanged; it does not terminate the session. -/
theorem c4_f5_encap_discard (st : PppState) (ph : List Nat)
    (h8 : 8 ≤ ph.length)
    (hbad : load_be16 ph 0 ≠ 0xf500 ∨ ph.length ≠ 4 + load_be16 ph 2) :
    process_f5_frame st ph = (.discard, st) := by
  unfold process_f5_frame
  rcases hbad with hb | hb
  · rw [if_neg (by omega), if_pos hb]
  · by_cases hm : load_be16 ph 0 ≠ 0xf500
    · rw [if_neg (by omega), if_pos hm]
    · rw [if_neg (by omega), if_neg hm, if_pos hb]

/-- C4 witness: an 8-byte F5 frame whose announced payload length (5)
disagrees with the actual one (4) is discarded with the fresh session
unchanged. -/
theorem c4_witness :
    process_f5_frame (openconnect_ppp_new .f5 true false)
        [0xf5, 0, 0, 5, 1, 2, 3, 4] =
      (.discard, openconnect_ppp_new .f5 true false) :=
  c4_f5_encap_discard (openconnect_ppp_new .f5 true false)
    [0xf5, 0, 0, 5, 1, 2, 3, 4] (by decide) (Or.inr (by decide))

/-- C3 counterexample: a well-formed F5 frame whose two post-encap bytes
are 21 45 (not ff 03), received by a fresh session (ACCOMP not in
in_lcp_opts), makes the mainloop return 1 - but the state comes back
unchanged: quit_reason is still none, against the claim that it
indicates a bad PPP packet. -/
theorem c3_counterexample :
    process_f5_frame (openconnect_ppp_new .f5 true false)
        [0xf5, 0, 0, 4, 0x21, 0x45, 0, 0] =
      (.terminate 1, openconnect_ppp_new .f5 true false) ∧
    (openconnect_ppp_new .f5 true false).quitReason = none := by
  decide

/-- C3 amended: while ACCOMP is not in the negotiated incoming LCP
options, a well-formed F5 frame whose first two post-encap bytes are not
ff 03 makes ppp_mainloop return the terminal sentinel 1 after logging
the bad packet, with the session state unchanged: in particular
quit_reason is NOT set (the bad_ppp_pkt exit has no quit_reason
assignment), and the frame is neither handed to handle_config_packet nor
enqueued anywhere. -/
theorem c3_accomp_missing_addrctrl (st : PppState) (ph : List Nat)
    (h8 : 8 ≤ ph.length)
    (hmag : load_be16 ph 0 = 0xf500)
    (hlen : ph.length = 4 + load_be16 ph 2)
    (hacc : st.in_lcp_opts &&& ACCOMP = 0)
    (hff : ¬(byteAt (ph.drop 4) 0 = 0xff ∧ byteAt (ph.drop 4) 1 = 0x03)) :
    process_f5_frame st ph = (.terminate 1, st) := by
  have hparse : parse_ppp_header st.in_lcp_opts (ph.drop 4) = .badPkt := by
    unfold parse_ppp_header
    rw [if_neg (by rintro ⟨hc1, hc2, _⟩; omega)]
    rw [if_neg (by simp [hacc])]
    rw [if_pos (by tauto)]
  unfold process_f5_frame
  rw [if_neg (by omega), if_neg (by simp [hmag]), if_neg (by omega), hparse]

/-- C3 witness: the counterexample frame through the amended statement:
the fresh session has ACCOMP unset, and the frame [f5 00 00 04 21 45 00
00] yields the terminal return 1 with the state unchanged. -/
theorem c3_witness :
    process_f5_frame (openconnect_ppp_new .f5 true false)
        [0xf5, 0, 0, 4, 0x21, 0x45, 0, 0] =
      (.terminate 1, openconnect_ppp_new .f5 true false) :=
  c3_accomp_missing_addrctrl (openconnect_ppp_new .f5 true false)
    [0xf5, 0, 0, 4, 0x21, 0x45, 0, 0] (by decide) (by decide) (by decide)
    (by decide) (by decide)

/-- C9 counterexample: the claim keys the header compressions to what
the peer advertised, i.e. to in_lcp_opts - the option set filled from
the peer's Configure-Request.  The code keys them to out_lcp_opts, the
engine's own request, which queue_config_request unconditionally sets to
ACCOMP | PFCOMP.  In the reachable state c9_state the engine has queued
its Configure-Request while the peer advertised nothing: for an IPv4
data packet (protocol 0x21) the code emits a 1-byte protocol field and
omits ff 03, though the claim requires 2 bytes and the pair present. -/
theorem c9_counterexample :
    c9_state.in_lcp_opts &&& PFCOMP = 0 ∧ c9_state.in_lcp_opts &&& ACCOMP = 0 ∧
    c9_state.out_lcp_opts = 3 ∧
    ¬(((ppp_hdr_protocol c9_state.out_lcp_opts PPP_IP).length = 1 ↔
        (c9_state.in_lcp_opts &&& PFCOMP ≠ 0 ∧ PPP_IP ≤ 0xff ∧ PPP_IP % 2 = 1)) ∧
      (ppp_hdr_addrctrl c9_state.out_lcp_opts PPP_IP = [] ↔
        (c9_state.in_lcp_opts &&& ACCOMP ≠ 0 ∧ PPP_IP ≠ PPP_LCP))) := by
  decide

/-- C9 amended: for every protocol the engine actually sends (LCP, IPCP,
IP6CP, IPv4, IPv6) and every outgoing option set, the protocol field is
1 byte iff PFCOMP is in the engine's outgoing LCP options (out_lcp_opts)
and the protocol fits in one byte and is odd; the ff 03 pair is omitted
iff ACCOMP is in out_lcp_opts and the frame is not LCP; and LCP frames
always carry ff 03 and the uncompressed 2-byte protocol field. -/
theorem c9_egress_header (opts proto : Nat)
    (hp : proto = PPP_LCP ∨ proto = PPP_IPCP ∨ proto = PPP_IP6CP ∨
      proto = PPP_IP ∨ proto = PPP_IP6) :
    ((ppp_hdr_protocol opts proto).length = 1 ↔
      (opts &&& PFCOMP ≠ 0 ∧ proto ≤ 0xff ∧ proto % 2 = 1)) ∧
    (ppp_hdr_addrctrl opts proto = [] ↔ (opts &&& ACCOMP ≠ 0 ∧ proto ≠ PPP_LCP)) ∧
    (proto = PPP_LCP → build_ppp_header opts proto = [0xff, 0x03, 0xc0, 0x21]) := by
  rcases hp with h | h | h | h | h <;> subst h <;>
    by_cases hP : opts &&& PFCOMP = 0 <;> by_cases hA : opts &&& ACCOMP = 0 <;>
      simp [ppp_hdr_protocol, ppp_hdr_addrctrl, build_ppp_header, hP, hA, PPP_LCP,
        PPP_IPCP, PPP_IP6CP, PPP_IP, PPP_IP6]

/-- C9 witness: with out_lcp_opts = ACCOMP | PFCOMP (the value the
engine always requests) an IPv4 data packet gets a 1-byte protocol field
and no ff 03 pair. -/
theorem c9_witness :
    ((ppp_hdr_protocol 3 PPP_IP).length = 1 ↔
      ((3:Nat) &&& PFCOMP ≠ 0 ∧ PPP_IP ≤ 0xff ∧ PPP_IP % 2 = 1)) ∧
    (ppp_hdr_addrctrl 3 PPP_IP = [] ↔ ((3:Nat) &&& ACCOMP ≠ 0 ∧ PPP_IP ≠ PPP_LCP)) ∧
    (PPP_IP = PPP_LCP → build_ppp_header 3 PPP_IP = [0xff, 0x03, 0xc0, 0x21]) :=
  c9_egress_header 3 PPP_IP (by decide)

end OcPPP
